import Mathlib

/-!
Verification of the slot-machine reel kinematics and spin orchestration of the
`slots-game` repository.

The development shallowly embeds the two core components:

* `Reel` — the configuration-driven reel (`src/unnamed/part_007`, second class
  in the file; the identical deceleration/snap logic also appears in
  `src/unnamed/part_008`): a spin → decelerate → snap state machine driven by a
  per-frame `update(delta)` call that is wall-clock throttled to one effective
  update per 16 ms.
* `SimpleReel` — the plain reel of `src/src/slots/Reel.ts`: unthrottled,
  un-normalized `update(delta)` with an in-place `snapToGrid`.
* `SlotMachine` — the orchestrator of `src/src/slots/SlotMachine.ts` (first
  class in the file): guarded `spin()`, staggered start/stop schedules, and the
  completion barrier polling `isAnimationComplete` every 50 ms before
  `checkWin`.

JavaScript numbers are modelled as rationals (`ℚ`); `%` is the truncated
remainder, `Math.floor`/`Math.round`/`Math.sign`/`Math.abs`/`Math.min`/
`Math.max` are modelled exactly.  `performance.now()` and the random jitter of
`startSpin` are explicit parameters.
-/

/-! ### JavaScript numeric primitives -/

/-- JavaScript truncation toward zero, as used by the `%` operator. -/
def jsTrunc (q : ℚ) : ℤ :=
  if 0 ≤ q then ⌊q⌋ else ⌈q⌉

/-- JavaScript `x % y`: the truncated remainder (sign of the dividend). -/
def jsMod (x y : ℚ) : ℚ :=
  x - y * (jsTrunc (x / y) : ℚ)

/-- `x % w` followed by the `if (m < 0) m += w` adjustment used throughout the
reel code to wrap a displacement into `[0, w)`. -/
def jsWrap (x w : ℚ) : ℚ :=
  let m := jsMod x w
  if m < 0 then m + w else m

/-- JavaScript `Math.round`: round half toward positive infinity. -/
def jsRound (q : ℚ) : ℚ :=
  (⌊q + 1/2⌋ : ℚ)

/-- JavaScript `Math.sign` restricted to non-NaN inputs. -/
def jsSign (q : ℚ) : ℚ :=
  if q < 0 then -1 else if 0 < q then 1 else 0

/-! ### The configuration record

`configManager.get('reels')` supplies `spinSpeed`, `slowdownRate` and
`stopThreshold` (defaults `400`, `0.95`, `5.0` in `src/unnamed/part_004`). -/

structure ReelConfig where
  spinSpeed : ℚ
  slowdownRate : ℚ
  stopThreshold : ℚ
deriving DecidableEq

/-- The repository's default reel configuration. -/
def defaultReelConfig : ReelConfig :=
  { spinSpeed := 400, slowdownRate := 95/100, stopThreshold := 5 }

namespace Reel

/-- State of the configuration-driven `Reel` (`src/unnamed/part_007`):
the mutable fields of the class together with the stored `x` coordinates of
its symbol sprites. -/
structure State where
  symbolCount : ℕ
  symbolSize : ℚ
  speed : ℚ
  isSpinning : Bool
  currentOffset : ℚ
  hasSnapped : Bool
  isSnapping : Bool
  snapTarget : ℚ
  lastUpdateTime : ℚ
  positions : List ℚ
deriving DecidableEq

/-- `updateSymbolPositions`: recompute every symbol's stored `x` from the
current offset; wrap into `[0, totalWidth)` and round to whole pixels when the
reel is essentially at rest. -/
def updateSymbolPositions (s : State) : State :=
  let totalWidth := (s.symbolCount : ℚ) * s.symbolSize
  { s with positions :=
      (List.range s.symbolCount).map fun (i : ℕ) =>
        let x := (i : ℚ) * s.symbolSize + s.currentOffset
        let wrappedX := jsWrap x totalWidth
        let wrappedX := if totalWidth ≤ wrappedX then wrappedX - totalWidth else wrappedX
        if !s.isSnapping && !s.isSpinning && |s.speed| < 1/10 then
          jsRound wrappedX
        else wrappedX }

/-- `prepareSnap`: compute the snap target from the wrapped offset, clamp it to
`[0, totalWidth - symbolSize]`, re-add the number of full belt cycles, and
reset the offset to its wrapped value. -/
def prepareSnap (s : State) : State :=
  if s.hasSnapped then s
  else
    let totalWidth := (s.symbolCount : ℚ) * s.symbolSize
    let wrappedPosition := jsWrap s.currentOffset totalWidth
    let targetPosition := jsRound (wrappedPosition / s.symbolSize) * s.symbolSize
    let targetPosition := max 0 (min targetPosition (totalWidth - s.symbolSize))
    let cycles : ℚ := (⌊s.currentOffset / totalWidth⌋ : ℚ)
    { s with snapTarget := cycles * totalWidth + targetPosition
           , currentOffset := wrappedPosition
           , isSnapping := true
           , hasSnapped := true }

/-- The smooth-snapping block at the top of `update` (part_007 lines 268-283):
while the distance to the snap target exceeds 0.5, move a fraction of the
remaining distance toward it; otherwise land exactly on the target and leave
the snapping state.  Finishes by refreshing the symbol positions. -/
def snapPhase (s : State) (normalizedDelta : ℚ) : State :=
  let diff := s.snapTarget - s.currentOffset
  let distance := |diff|
  let s :=
    if 1/2 < distance then
      let snapSpeed := distance * (1/2) * normalizedDelta
      let moveDistance := min snapSpeed distance
      { s with currentOffset := s.currentOffset + jsSign diff * moveDistance }
    else
      { s with currentOffset := s.snapTarget, isSnapping := false }
  updateSymbolPositions s

/-- The deceleration block at the bottom of `update` (part_007 lines 293-308):
when stopping with positive speed, decay the speed, fire `prepareSnap` once the
speed falls below the stop threshold, and once a snap target exists finalize
(`speed = 0`, enter snapping) when close to the target or nearly stopped. -/
def decelerate (cfg : ReelConfig) (s : State) : State :=
  if !s.isSpinning && 0 < s.speed then
    let s := { s with speed := s.speed * cfg.slowdownRate }
    let s := if s.speed < cfg.stopThreshold && !s.hasSnapped then prepareSnap s else s
    if s.hasSnapped && !s.isSnapping then
      let distanceToTarget := |s.currentOffset - s.snapTarget|
      if distanceToTarget < 5 || s.speed < 1/10 then
        { s with speed := 0, isSnapping := true }
      else s
    else s
  else s

/-- `update(delta)`: the per-frame entry point.  `now` is the value of
`performance.now()` at the call; calls less than 16 ms after the last
effective update are skipped entirely.  Otherwise: run the snapping animation
when in it; return when idle; else advance the offset by
`speed * normalizedDelta`, refresh symbol positions, and run the deceleration
block. -/
def update (cfg : ReelConfig) (s : State) (now delta : ℚ) : State :=
  if now - s.lastUpdateTime < 16 then s
  else
    let s := { s with lastUpdateTime := now }
    let normalizedDelta := min (delta / (1000 / 60)) 2
    if s.isSnapping && !s.isSpinning then snapPhase s normalizedDelta
    else if !s.isSpinning && s.speed == 0 && !s.isSnapping then s
    else
      let s := if 0 < s.speed then
          { s with currentOffset := s.currentOffset - s.speed * normalizedDelta }
        else s
      decelerate cfg (updateSymbolPositions s)

/-- `startSpin()`: start spinning at `config.spinSpeed` perturbed by the random
jitter `Math.random() * 10 - 5`, passed here as the explicit argument
`jitter ∈ [-5, 5)`. -/
def startSpin (cfg : ReelConfig) (jitter : ℚ) (s : State) : State :=
  { s with isSpinning := true
         , speed := cfg.spinSpeed + jitter
         , hasSnapped := false
         , isSnapping := false }

/-- `stopSpin()`: request the lazy deceleration. -/
def stopSpin (s : State) : State :=
  { s with isSpinning := false }

/-- `isAnimationComplete()`. -/
def isAnimationComplete (s : State) : Bool :=
  !s.isSpinning && decide (s.speed = 0) && !s.isSnapping

/-- The constructor: symbols are laid out at `i * symbolSize` and then aligned
by an initial `updateSymbolPositions` call. -/
def init (symbolCount : ℕ) (symbolSize : ℚ) : State :=
  updateSymbolPositions
    { symbolCount := symbolCount
    , symbolSize := symbolSize
    , speed := 0
    , isSpinning := false
    , currentOffset := 0
    , hasSnapped := false
    , isSnapping := false
    , snapTarget := 0
    , lastUpdateTime := 0
    , positions := (List.range symbolCount).map fun (i : ℕ) => (i : ℚ) * symbolSize }

/-- One effective frame: an `update(1)` call issued exactly 16 ms after the
previous effective update, so the wall-clock throttle always passes. -/
def tick (cfg : ReelConfig) (s : State) : State :=
  update cfg s (s.lastUpdateTime + 16) 1

end Reel

namespace SimpleReel

/-- State of the plain `Reel` of `src/src/slots/Reel.ts`: no snap state machine,
no throttle, raw `delta` scaling. -/
structure State where
  symbolCount : ℕ
  symbolSize : ℚ
  speed : ℚ
  isSpinning : Bool
  currentOffset : ℚ
  positions : List ℚ
deriving DecidableEq

/-- The wrapping used by `Reel.ts`: add `ceil(|x|/w)*w` when negative, subtract
`floor(x/w)*w` when at least `w`. -/
def wrapPos (x w : ℚ) : ℚ :=
  if x < 0 then x + (⌈|x| / w⌉ : ℚ) * w
  else if w ≤ x then x - (⌊x / w⌋ : ℚ) * w
  else x

/-- Recompute all symbol positions from the current offset
(the loop at `Reel.ts` lines 86-98 and 135-146). -/
def updateSymbolPositions (s : State) : State :=
  let totalWidth := (s.symbolCount : ℚ) * s.symbolSize
  { s with positions :=
      (List.range s.symbolCount).map fun (i : ℕ) =>
        wrapPos ((i : ℚ) * s.symbolSize + s.currentOffset) totalWidth }

/-- `snapToGrid` of `Reel.ts`: normalize the offset, move it by the difference
to the nearest grid position when that difference is significant, and refresh
the symbol positions. -/
def snapToGrid (s : State) : State :=
  let totalWidth := (s.symbolCount : ℚ) * s.symbolSize
  let normalizedOffset := wrapPos s.currentOffset totalWidth
  let nearestGridPosition := jsRound (normalizedOffset / s.symbolSize) * s.symbolSize
  let diff := normalizedOffset - nearestGridPosition
  let s := if 1/10 < |diff| then { s with currentOffset := s.currentOffset - diff } else s
  updateSymbolPositions s

/-- `update(delta)` of `Reel.ts`: unthrottled; the offset advances by
`speed * delta` while spinning; deceleration multiplies by `SLOWDOWN_RATE` and
snaps once below `STOP_THRESHOLD`.  The `slowdownRate`/`stopThreshold`
constants of `src/src/utils/constants.ts` are `0.95` and `5.0`. -/
def update (s : State) (delta : ℚ) : State :=
  if !s.isSpinning && s.speed == 0 then s
  else
    let s := if s.isSpinning then
        { s with currentOffset := s.currentOffset - s.speed * delta }
      else s
    let s := updateSymbolPositions s
    if !s.isSpinning && 0 < s.speed then
      let s := { s with speed := s.speed * (95/100) }
      if s.speed < 5 then snapToGrid { s with speed := 0 } else s
    else s

/-- `startSpin()` of `Reel.ts`: `speed` is set to the configured
`REEL_CONFIG.SPIN_SPEED`, passed here as the parameter `spinSpeed`. -/
def startSpin (spinSpeed : ℚ) (s : State) : State :=
  { s with isSpinning := true, speed := spinSpeed }

/-- `stopSpin()` of `Reel.ts`. -/
def stopSpin (s : State) : State :=
  { s with isSpinning := false }

/-- The `Reel.ts` constructor: symbols are laid out at `i * symbolSize`; this
variant performs no initial `updateSymbolPositions` call. -/
def init (symbolCount : ℕ) (symbolSize : ℚ) : State :=
  { symbolCount := symbolCount
  , symbolSize := symbolSize
  , speed := 0
  , isSpinning := false
  , currentOffset := 0
  , positions := (List.range symbolCount).map fun (i : ℕ) => (i : ℚ) * symbolSize }

end SimpleReel

namespace SlotMachine

/-- Animation configuration consumed by `spin`/`stopSpin`
(`configManager.get('animation')`). -/
structure AnimConfig where
  reelSpinDelay : ℚ
  spinTotalDuration : ℚ
  reelStopDelay : ℚ
deriving DecidableEq

/-- The observable effects of a `spin()` call: sounds, button updates, the
timer-scheduled reel commands, and the emitted events, in program order. -/
inductive Effect where
  | soundPlay (name : String)
  | buttonDisable
  | scheduleStartSpin (reel : ℕ) (delay : ℚ)
  | scheduleStopSequence (delay : ℚ)
  | emitSpinStart
deriving DecidableEq

/-- Orchestrator state: the `isSpinning` cycle guard and its reels
(`SlotMachine.ts`, fields `isSpinning` and `reels`). -/
structure State where
  isSpinning : Bool
  reels : List Reel.State
deriving DecidableEq

/-- `spin()` (`SlotMachine.ts` lines 74-98): a guarded no-op when a cycle is
active; otherwise set the guard, play the spin sound, disable the button,
schedule `reels[i].startSpin()` at `i * reelSpinDelay`, schedule the stop
sequence at `spinTotalDuration + (reels.length - 1) * reelSpinDelay`, and emit
`spin:start`. -/
def spin (anim : AnimConfig) (m : State) : State × List Effect :=
  if m.isSpinning then (m, [])
  else
    ({ m with isSpinning := true },
      [Effect.soundPlay "Reel spin", Effect.buttonDisable] ++
      (List.range m.reels.length).map
        (fun i => Effect.scheduleStartSpin i ((i : ℚ) * anim.reelSpinDelay)) ++
      [Effect.scheduleStopSequence
        (anim.spinTotalDuration + ((m.reels.length : ℚ) - 1) * anim.reelSpinDelay),
       Effect.emitSpinStart])

/-- Count of `spin:start` emissions in an effect list. -/
def countSpinStart (l : List Effect) : ℕ :=
  (l.filter fun e => e matches Effect.emitSpinStart).length

/-- Count of scheduled reel-start commands in an effect list. -/
def countScheduledStarts (l : List Effect) : ℕ :=
  (l.filter fun e => e matches Effect.scheduleStartSpin _ _).length

/-- The completion barrier of `stopSpin` (`SlotMachine.ts` lines 107-127):
`checkReelsComplete` samples `reels.every(isAnimationComplete)` at time `t`; on
success `checkWin()` runs at `t`, otherwise the check is rescheduled 50 ms
later.  `reelsAt` gives the reel states as a function of time and `fuel`
bounds the recursion (the source loop has no timeout).  The returned value is
the time at which `checkWin()` is invoked, or `none` if the barrier never
resolved within `fuel` retries. -/
def checkReelsComplete (reelsAt : ℚ → List Reel.State) : ℕ → ℚ → Option ℚ
  | 0, _ => none
  | fuel + 1, t =>
    if (reelsAt t).all Reel.isAnimationComplete then some t
    else checkReelsComplete reelsAt fuel (t + 50)

/-- The barrier entry point: after the last reel's `stopSpin()` is issued at
time `tLastStop`, the first completion check is scheduled 100 ms later
(`setTimeout(checkReelsComplete, 100)`). -/
def checkWinTime (reelsAt : ℚ → List Reel.State) (fuel : ℕ) (tLastStop : ℚ) : Option ℚ :=
  checkReelsComplete reelsAt fuel (tLastStop + 100)

end SlotMachine

/-! ### The settle-to-grid run

The concrete run of §8's settle-to-grid property: `symbolCount = 6`,
`symbolSize = 150`, `baseSpinSpeed = 50` (jitter drawn as `0`),
`slowdownRate = 0.95`, `stopThreshold = 5.0`; `startSpin()`, twenty effective
`update(1)` frames, `stopSpin()`, then further effective `update(1)` frames.
Intermediate states are recorded as explicit rational literals so that each
evaluation step stays shallow. -/

/-- Abbreviation for rational literals `n / d`. -/
def rq (n : ℤ) (d : ℕ) : ℚ := (n : ℚ) / (d : ℚ)

/-- The settle-to-grid configuration of spec §8. -/
def settleConfig : ReelConfig :=
  { spinSpeed := 50, slowdownRate := 95/100, stopThreshold := 5 }

/-- The reel state after `startSpin()` (jitter 0) and 20 effective frames. -/
def B20 : Reel.State :=
  { symbolCount := 6
  , symbolSize := rq (150) 1
  , speed := rq (50) 1
  , isSpinning := true
  , currentOffset := rq (-60) 1
  , hasSnapped := false
  , isSnapping := false
  , snapTarget := rq (0) 1
  , lastUpdateTime := rq (320) 1
  , positions := [rq (840) 1, rq (90) 1, rq (240) 1, rq (390) 1, rq (540) 1, rq (690) 1] }

/-- The state at which the further `update(1)` frames begin: `stopSpin()`
issued after the 20 spinning frames. -/
def settleStart : Reel.State := Reel.stopSpin B20

/-- 15 frames into the deceleration. -/
def D15 : Reel.State :=
  { symbolCount := 6
  , symbolSize := rq (150) 1
  , speed := rq (15181127029874798299) 655360000000000000
  , isSpinning := false
  , currentOffset := rq (-151064618910375605103) 1638400000000000000
  , hasSnapped := false
  , isSnapping := false
  , snapTarget := rq (0) 1
  , lastUpdateTime := rq (560) 1
  , positions := [rq (1323495381089624394897) 1638400000000000000, rq (94695381089624394897) 1638400000000000000, rq (340455381089624394897) 1638400000000000000, rq (586215381089624394897) 1638400000000000000, rq (831975381089624394897) 1638400000000000000, rq (1077735381089624394897) 1638400000000000000] }

/-- 30 frames into the deceleration. -/
def D30 : Reel.State :=
  { symbolCount := 6
  , symbolSize := rq (150) 1
  , speed := rq (230466617897195215045509519405933293401) 21474836480000000000000000000000000000
  , isSpinning := false
  , currentOffset := rq (-5751051090308414354863471441782200119797) 53687091200000000000000000000000000000
  , hasSnapped := false
  , isSnapping := false
  , snapTarget := rq (0) 1
  , lastUpdateTime := rq (800) 1
  , positions := [rq (42567330989691585645136528558217799880203) 53687091200000000000000000000000000000, rq (2302012589691585645136528558217799880203) 53687091200000000000000000000000000000, rq (10355076269691585645136528558217799880203) 53687091200000000000000000000000000000, rq (18408139949691585645136528558217799880203) 53687091200000000000000000000000000000, rq (26461203629691585645136528558217799880203) 53687091200000000000000000000000000000, rq (34514267309691585645136528558217799880203) 53687091200000000000000000000000000000] }

/-- Frame 45 of the deceleration: the frame in which `speed` first falls below
the stop threshold and `prepareSnap` fires (`snapTarget = -150`, the offset
reset to its wrapped value). -/
def D45 : Reel.State :=
  { symbolCount := 6
  , symbolSize := rq (150) 1
  , speed := rq (3498743002442937227729601361122964878585526371203662724899) 703687441776640000000000000000000000000000000000000000000
  , isSpinning := false
  , currentOffset := rq (1382686740471776811683188804083368894635756579113610988174697) 1759218604441600000000000000000000000000000000000000000000
  , hasSnapped := true
  , isSnapping := true
  , snapTarget := rq (-150) 1
  , lastUpdateTime := rq (1040) 1
  , positions := [rq (1382686740471776811683188804083368894635756579113610988174697) 1759218604441600000000000000000000000000000000000000000000, rq (63272787140576811683188804083368894635756579113610988174697) 1759218604441600000000000000000000000000000000000000000000, rq (327155577806816811683188804083368894635756579113610988174697) 1759218604441600000000000000000000000000000000000000000000, rq (591038368473056811683188804083368894635756579113610988174697) 1759218604441600000000000000000000000000000000000000000000, rq (854921159139296811683188804083368894635756579113610988174697) 1759218604441600000000000000000000000000000000000000000000, rq (1118803949805536811683188804083368894635756579113610988174697) 1759218604441600000000000000000000000000000000000000000000] }

/-- Distance from `D45`'s offset to its snap target: the snap animation starts
`d0` above the target and contracts by the factor `97/100` each frame. -/
def d0 : ℚ := D45.currentOffset - D45.snapTarget

/-- Frame 294: the snap animation lands exactly on the target (`-150`), but
`speed` is still positive, so the reel is not yet complete. -/
def E294 : Reel.State :=
  { symbolCount := 6
  , symbolSize := rq (150) 1
  , speed := rq (3498743002442937227729601361122964878585526371203662724899) 703687441776640000000000000000000000000000000000000000000
  , isSpinning := false
  , currentOffset := rq (-150) 1
  , hasSnapped := true
  , isSnapping := false
  , snapTarget := rq (-150) 1
  , lastUpdateTime := rq (5024) 1
  , positions := [rq (750) 1, rq (0) 1, rq (150) 1, rq (300) 1, rq (450) 1, rq (600) 1] }

/-- Frame 295: the offset drifts off the target again, then the
`distanceToTarget < 5` branch zeroes the speed and re-enters snapping. -/
def E295 : Reel.State :=
  { symbolCount := 6
  , symbolSize := rq (150) 1
  , speed := rq (0) 1
  , isSpinning := false
  , currentOffset := rq (-5288152042332128811683188804083368894635756579113610988174697) 35184372088832000000000000000000000000000000000000000000000
  , hasSnapped := true
  , isSnapping := true
  , snapTarget := rq (-150) 1
  , lastUpdateTime := rq (5040) 1
  , positions := [rq (26377782837616671188316811195916631105364243420886389011825303) 35184372088832000000000000000000000000000000000000000000000, rq (31655438650941471188316811195916631105364243420886389011825303) 35184372088832000000000000000000000000000000000000000000000, rq (5267159584317471188316811195916631105364243420886389011825303) 35184372088832000000000000000000000000000000000000000000000, rq (10544815397642271188316811195916631105364243420886389011825303) 35184372088832000000000000000000000000000000000000000000000, rq (15822471210967071188316811195916631105364243420886389011825303) 35184372088832000000000000000000000000000000000000000000000, rq (21100127024291871188316811195916631105364243420886389011825303) 35184372088832000000000000000000000000000000000000000000000] }

/-- Frame 296: the final state — grid-exact offset `-150` and
`isAnimationComplete()` true. -/
def E296 : Reel.State :=
  { symbolCount := 6
  , symbolSize := rq (150) 1
  , speed := rq (0) 1
  , isSpinning := false
  , currentOffset := rq (-150) 1
  , hasSnapped := true
  , isSnapping := false
  , snapTarget := rq (-150) 1
  , lastUpdateTime := rq (5056) 1
  , positions := [rq (750) 1, rq (0) 1, rq (150) 1, rq (300) 1, rq (450) 1, rq (600) 1] }

/-- Generic state of the snap animation: offset `d` above the snap target at
wall-clock time `t`, positions freshly recomputed (which is how every
snap-phase frame leaves the reel). -/
def snapState (base : Reel.State) (d t : ℚ) : Reel.State :=
  Reel.updateSymbolPositions
    { base with currentOffset := base.snapTarget + d, lastUpdateTime := t }

/-- The settle-to-grid property of spec §8 with completion bound `bound`:
some frame count `k ≤ bound` after `stopSpin()` reaches
`isAnimationComplete()` with the offset within `0.01` of a multiple of the
150 px symbol size. -/
def settleClaim (bound : ℕ) : Prop :=
  ∃ k ≤ bound,
    Reel.isAnimationComplete ((Reel.tick settleConfig)^[k] settleStart) = true ∧
    ∃ m : ℤ,
      |((Reel.tick settleConfig)^[k] settleStart).currentOffset - (m : ℚ) * 150| ≤ 1/100

def reelRun (cfg : ReelConfig) (nows deltas : ℕ → ℚ) (s : Reel.State) : ℕ → Reel.State
  | 0 => s
  | n + 1 => Reel.update cfg (reelRun cfg nows deltas s n) (nows n) (deltas n)

/-- States reachable from a freshly constructed reel through any interleaving
of `startSpin` (with a jitter in `[-5, 5)`, the range of
`Math.random() * 10 - 5`), `stopSpin`, and `update`. -/
inductive Reachable (cfg : ReelConfig) (symbolCount : ℕ) (symbolSize : ℚ) : Reel.State → Prop where
  | init : Reachable cfg symbolCount symbolSize (Reel.init symbolCount symbolSize)
  | startSpin {s : Reel.State} (jitter : ℚ) : -5 ≤ jitter → jitter < 5 →
      Reachable cfg symbolCount symbolSize s →
      Reachable cfg symbolCount symbolSize (Reel.startSpin cfg jitter s)
  | stopSpin {s : Reel.State} : Reachable cfg symbolCount symbolSize s →
      Reachable cfg symbolCount symbolSize (Reel.stopSpin s)
  | update {s : Reel.State} (now delta : ℚ) : Reachable cfg symbolCount symbolSize s →
      Reachable cfg symbolCount symbolSize (Reel.update cfg s now delta)

/-- A one-symbol reel mid-deceleration with a small speed, used to witness the
snapping-before-complete theorem on a short concrete trace. -/
def wS0 : Reel.State :=
  { symbolCount := 1, symbolSize := 150, speed := 1/20, isSpinning := false,
    currentOffset := 1/10, hasSnapped := false, isSnapping := false, snapTarget := 0,
    lastUpdateTime := 0, positions := [rq (0) 1] }

/-- Frame clocks 16 ms apart, so no frame is throttled. -/
def wNows : ℕ → ℚ := fun i => 16 * ((i : ℚ) + 1)

/-- Constant `update(1)` arguments. -/
def wDeltas : ℕ → ℚ := fun _ => 1

/-- Witness for C4: a two-reel idle orchestrator; a double `spin()` yields one
`spin:start` emission, two scheduled starts, and a no-op second call. -/
def wMachine : SlotMachine.State :=
  { isSpinning := false, reels := [Reel.init 6 150, Reel.init 6 150] }

/-- Concrete animation configuration (`ANIMATION_CONFIG` of `constants.ts`). -/
def wAnim : SlotMachine.AnimConfig :=
  { reelSpinDelay := 200, spinTotalDuration := 2000, reelStopDelay := 400 }

/-- A reel trace for the barrier witness: one reel, still mid-snap at the
first two checks, settled from time 200 on. -/
def wReelsAt : ℚ → List Reel.State := fun t => if t < 200 then [E295] else [E296]

def wrapVal (c : ℕ) (sz off : ℚ) (i : ℕ) : ℚ :=
  let W := (c : ℚ) * sz
  let x := (i : ℚ) * sz + off
  let wrappedX := jsWrap x W
  if W ≤ wrappedX then wrappedX - W else wrappedX

def PosInv (c : ℕ) (sz off : ℚ) (pos : List ℚ) : Prop :=
  pos.length = c ∧
  ∀ i (h : i < pos.length),
    pos.get ⟨i, h⟩ = wrapVal c sz off i ∨
    pos.get ⟨i, h⟩ = jsRound (wrapVal c sz off i)

def preSnapC1 : Reel.State :=
  { symbolCount := 2, symbolSize := 2, speed := 4, isSpinning := false,
    currentOffset := 7/2, hasSnapped := false, isSnapping := false, snapTarget := 0,
    lastUpdateTime := 0, positions := [rq (3) 2, rq (3) 2] }

/-- One snap-animation frame: while the distance to the target exceeds the
0.5 px threshold, the offset moves 3 % of the remaining distance toward the
target (update(1): `distance * 0.5 * normalizedDelta` with
`normalizedDelta = 0.06`), contracting the distance by the factor `97/100`. -/
theorem tick_snap_move (cfg : ReelConfig) (base : Reel.State) (d t : ℚ)
    (hsnap : base.isSnapping = true) (hspin : base.isSpinning = false)
    (hd : 1/2 < d) :
    Reel.tick cfg (snapState base d t) = snapState base (97/100 * d) (t + 16) := by
  have hd0 : 0 < d := lt_trans (by norm_num) hd
  have hsign : jsSign (-d) = -1 := by
    unfold jsSign
    rw [if_pos (by linarith)]
  have hmin : min (d * (1/2) * (3/50)) d = 3/100 * d := by
    rw [min_eq_left (by linarith)]
    ring
  obtain ⟨c, sz, sp, ispin, off, hsnp, isnap, tgt, lt, pos⟩ := base
  simp only at hsnap hspin
  subst hsnap hspin
  simp only [Reel.tick, Reel.update, Reel.snapPhase, snapState, Reel.updateSymbolPositions]
  norm_num [abs_of_pos hd0, hd, hsign, hmin]
  ring_nf
  simp

/-- Iterated snap-animation frames: after `m` frames the remaining distance is
`(97/100)^m * d`, provided every intermediate distance still exceeded the
0.5 px threshold. -/
theorem snap_iter (cfg : ReelConfig) (base : Reel.State)
    (hsnap : base.isSnapping = true) (hspin : base.isSpinning = false) :
    ∀ (m : ℕ) (d t : ℚ), (∀ j < m, 1/2 < (97/100 : ℚ)^j * d) →
      (Reel.tick cfg)^[m] (snapState base d t) =
        snapState base ((97/100 : ℚ)^m * d) (t + 16 * m)
  | 0, d, t, _ => by simp
  | m + 1, d, t, h => by
    have h0 : 1/2 < d := by simpa using h 0 (Nat.succ_pos m)
    have h' : ∀ j < m, 1/2 < (97/100 : ℚ)^j * (97/100 * d) := by
      intro j hj
      have hj1 := h (j + 1) (by omega)
      calc (1 : ℚ)/2 < (97/100 : ℚ)^(j+1) * d := hj1
        _ = (97/100 : ℚ)^j * (97/100 * d) := by ring
    rw [Function.iterate_succ_apply, tick_snap_move cfg base d t hsnap hspin h0,
      snap_iter cfg base hsnap hspin m (97/100 * d) (t + 16) h']
    congr 1
    · ring
    · push_cast
      ring

set_option maxRecDepth 4000

/-- Frames 1-20 of the settle-to-grid run: constant-speed spinning. -/
theorem settle_spin_frames :
    (Reel.tick settleConfig)^[20] (Reel.startSpin settleConfig 0 (Reel.init 6 150)) = B20 := by
  with_unfolding_all rfl

/-- Deceleration frames 1-15 after `stopSpin()`. -/
theorem settle_decel_frames_a : (Reel.tick settleConfig)^[15] settleStart = D15 := by
  with_unfolding_all rfl

/-- Deceleration frames 16-30. -/
theorem settle_decel_frames_b : (Reel.tick settleConfig)^[15] D15 = D30 := by
  with_unfolding_all rfl

/-- Deceleration frames 31-45, ending in the `prepareSnap` frame. -/
theorem settle_decel_frames_c : (Reel.tick settleConfig)^[15] D30 = D45 := by
  with_unfolding_all rfl

/-- `D45` is a snap-animation state: offset `d0` above the target `-150`. -/
theorem settle_snap_form : snapState D45 d0 1040 = D45 := by
  with_unfolding_all rfl

/-- The snap animation starts strictly above the target. -/
theorem d0_pos : (0 : ℚ) < d0 := of_decide_eq_true (by with_unfolding_all rfl)

/-- After 247 contraction frames the remaining distance still exceeds 0.5 px. -/
theorem snap_dist_247 : (1 : ℚ)/2 < (97/100 : ℚ)^247 * d0 :=
  of_decide_eq_true (by with_unfolding_all rfl)

/-- After 248 contraction frames the remaining distance first drops to 0.5 px
or less, so frame 294 lands exactly on the target. -/
theorem snap_dist_248 : (97/100 : ℚ)^248 * d0 ≤ 1/2 :=
  of_decide_eq_true (by with_unfolding_all rfl)

theorem D45_isSnapping : D45.isSnapping = true := rfl

theorem D45_isSpinning : D45.isSpinning = false := rfl

/-- Every snap frame up to the 248th still sees a distance above 0.5 px. -/
theorem snap_dist_mono : ∀ j < 248, (1 : ℚ)/2 < (97/100 : ℚ)^j * d0 := by
  intro j hj
  have hle : (97/100 : ℚ)^247 ≤ (97/100 : ℚ)^j :=
    pow_le_pow_of_le_one (by norm_num) (by norm_num) (by omega)
  calc (1 : ℚ)/2 < (97/100 : ℚ)^247 * d0 := snap_dist_247
    _ ≤ (97/100 : ℚ)^j * d0 := mul_le_mul_of_nonneg_right hle (le_of_lt d0_pos)

/-- Frame 294: the snap lands exactly on the target. -/
theorem settle_close_frame :
    Reel.tick settleConfig (snapState D45 ((97/100 : ℚ)^248 * d0) 5008) = E294 := by
  with_unfolding_all rfl

/-- Frame 295: drift off the target, then speed zeroed and snapping re-entered. -/
theorem settle_frame_295 : Reel.tick settleConfig E294 = E295 := by with_unfolding_all rfl

/-- Frame 296: grid-exact rest. -/
theorem settle_frame_296 : Reel.tick settleConfig E295 = E296 := by with_unfolding_all rfl

theorem E296_complete : Reel.isAnimationComplete E296 = true := by with_unfolding_all rfl

theorem E296_offset : E296.currentOffset = -150 := by with_unfolding_all rfl

/-- An `update` on a completed reel only refreshes the throttle timestamp. -/
theorem tick_of_complete (cfg : ReelConfig) (s : Reel.State)
    (h : Reel.isAnimationComplete s = true) :
    Reel.tick cfg s = { s with lastUpdateTime := s.lastUpdateTime + 16 } := by
  obtain ⟨c, sz, sp, ispin, off, hsnp, isnap, tgt, lt, pos⟩ := s
  simp only [Reel.isAnimationComplete, Bool.and_eq_true, Bool.not_eq_true',
    decide_eq_true_eq] at h
  obtain ⟨⟨h1, h2⟩, h3⟩ := h
  subst h1 h2 h3
  simp only [Reel.tick, Reel.update]
  norm_num

/-- Completion is absorbing for single frames. -/
theorem complete_tick (cfg : ReelConfig) (s : Reel.State)
    (h : Reel.isAnimationComplete s = true) :
    Reel.isAnimationComplete (Reel.tick cfg s) = true := by
  rw [tick_of_complete cfg s h]
  obtain ⟨c, sz, sp, ispin, off, hsnp, isnap, tgt, lt, pos⟩ := s
  exact h

/-- Completion is absorbing: once `isAnimationComplete()` holds it holds after
every further frame. -/
theorem complete_iter (cfg : ReelConfig) (s : Reel.State)
    (h : Reel.isAnimationComplete s = true) :
    ∀ n, Reel.isAnimationComplete ((Reel.tick cfg)^[n] s) = true
  | 0 => h
  | n + 1 => by
    rw [Function.iterate_succ_apply]
    exact complete_iter cfg _ (complete_tick cfg s h) n

/-- Frames 1-45 after `stopSpin()`. -/
theorem settle_run_45 : (Reel.tick settleConfig)^[45] settleStart = D45 := by
  have h : (45 : ℕ) = 15 + (15 + 15) := by norm_num
  rw [h, Function.iterate_add_apply, Function.iterate_add_apply,
    settle_decel_frames_a, settle_decel_frames_b, settle_decel_frames_c]

/-- No snap-animation state of this run is complete (its `isSnapping` flag is
set and its `speed` is the positive frame-45 speed). -/
theorem snap_notComplete (d t : ℚ) :
    Reel.isAnimationComplete (snapState D45 d t) = false := by
  with_unfolding_all rfl

/-- Frame 200 after `stopSpin()`: still inside the snap animation. -/
theorem settle_run_200 : (Reel.tick settleConfig)^[200] settleStart =
    snapState D45 ((97/100 : ℚ)^155 * d0) 3520 := by
  have h : (200 : ℕ) = 155 + 45 := by norm_num
  rw [h, Function.iterate_add_apply, settle_run_45]
  conv_lhs => rw [← settle_snap_form]
  rw [snap_iter settleConfig D45 D45_isSnapping D45_isSpinning 155 d0 1040
    (fun j hj => snap_dist_mono j (by omega))]
  congr 1
  norm_num

/-- Frame 293 after `stopSpin()`: the last frame whose snap distance still
exceeds the threshold. -/
theorem settle_run_293 : (Reel.tick settleConfig)^[293] settleStart =
    snapState D45 ((97/100 : ℚ)^248 * d0) 5008 := by
  have h : (293 : ℕ) = 248 + 45 := by norm_num
  rw [h, Function.iterate_add_apply, settle_run_45]
  conv_lhs => rw [← settle_snap_form]
  rw [snap_iter settleConfig D45 D45_isSnapping D45_isSpinning 248 d0 1040 snap_dist_mono]
  congr 1
  norm_num

/-- Frame 296 after `stopSpin()`: the run reaches the completed state `E296`. -/
theorem settle_run_296 : (Reel.tick settleConfig)^[296] settleStart = E296 := by
  have h : (296 : ℕ) = 1 + (1 + (1 + 293)) := by norm_num
  rw [h, Function.iterate_add_apply, Function.iterate_add_apply,
    Function.iterate_add_apply, settle_run_293, Function.iterate_one, settle_close_frame]
  rw [settle_frame_295, settle_frame_296]

/-- C2, counterexample: with the spec's constants (jitter drawn as 0 and
every `update(1)` effective), no frame count `k ≤ 200` after `stopSpin()`
reaches `isAnimationComplete()`: at frame 200 the reel is still 935.97⋅0.97¹⁵⁵
pixels into its snap animation. -/
theorem settle_within_200_false : ¬ settleClaim 200 := by
  rintro ⟨k, hk, hc, -⟩
  have h200 : Reel.isAnimationComplete ((Reel.tick settleConfig)^[200] settleStart) = true := by
    have hsplit : (200 : ℕ) = (200 - k) + k := by omega
    rw [hsplit, Function.iterate_add_apply]
    exact complete_iter settleConfig _ hc (200 - k)
  rw [settle_run_200, snap_notComplete] at h200
  exact Bool.false_ne_true h200

/-- C2, amended: with the claim's constants (`symbolCount=6, symbolSize=150,
baseSpinSpeed=50, slowdownRate=0.95, stopThreshold=5.0`, jitter drawn as 0)
and every `update(1)` call effective (16 ms apart), after `startSpin()`, 20
frames, `stopSpin()`, there is `k ≤ 300` — namely `k = 296` — with
`isAnimationComplete()` true and the offset an exact multiple of 150 (hence
within the 0.01 tolerance); a bound of 200 frames is too small. -/
theorem settle_within_300 : settleClaim 300 := by
  refine ⟨296, by norm_num, ?_, ⟨-1, ?_⟩⟩
  · rw [settle_run_296]
    exact E296_complete
  · rw [settle_run_296, E296_offset]
    norm_num

/-! ### Structural lemmas about `update` -/

theorem usp_speed (s : Reel.State) :
    (Reel.updateSymbolPositions s).speed = s.speed := rfl

theorem snapPhase_speed (s : Reel.State) (nd : ℚ) :
    (Reel.snapPhase s nd).speed = s.speed := by
  unfold Reel.snapPhase
  dsimp only
  split_ifs <;> rfl

theorem prepareSnap_speed (s : Reel.State) :
    (Reel.prepareSnap s).speed = s.speed := by
  unfold Reel.prepareSnap
  split_ifs <;> rfl

/-- The deceleration block either leaves the speed alone, multiplies it by the
slowdown rate, or zeroes it while simultaneously entering the snapping state:
`speed = 0; isSnapping = true` is the only zero-assignment in the source. -/
theorem decelerate_speed_cases (cfg : ReelConfig) (t : Reel.State) :
    (Reel.decelerate cfg t).speed = t.speed ∨
    (Reel.decelerate cfg t).speed = t.speed * cfg.slowdownRate ∨
    ((Reel.decelerate cfg t).speed = 0 ∧ (Reel.decelerate cfg t).isSnapping = true) := by
  unfold Reel.decelerate
  dsimp only
  split_ifs <;>
    first
      | (right; right; exact ⟨rfl, rfl⟩)
      | (right; left; rw [prepareSnap_speed])
      | (right; left; rfl)
      | (left; rfl)

/-- Case analysis of a full `update` call on the reel's speed. -/
theorem update_speed_cases (cfg : ReelConfig) (s : Reel.State) (now delta : ℚ) :
    (Reel.update cfg s now delta).speed = s.speed ∨
    (Reel.update cfg s now delta).speed = s.speed * cfg.slowdownRate ∨
    ((Reel.update cfg s now delta).speed = 0 ∧ (Reel.update cfg s now delta).isSnapping = true) := by
  unfold Reel.update
  dsimp only
  split_ifs with h1 h2 h3 h4
  · left
    rfl
  · left
    rw [snapPhase_speed]
  · left
    rfl
  · have hc := decelerate_speed_cases cfg
      (Reel.updateSymbolPositions
        { s with currentOffset := s.currentOffset - s.speed * min (delta / (1000 / 60)) 2
               , lastUpdateTime := now })
    rw [usp_speed] at hc
    exact hc
  · have hc := decelerate_speed_cases cfg
      (Reel.updateSymbolPositions { s with lastUpdateTime := now })
    rw [usp_speed] at hc
    exact hc

/-! ### Execution traces of repeated `update` calls

`reelRun cfg nows deltas s n` is the reel state after `n` `update` calls whose
`performance.now()` values and `delta` arguments are given by the sequences
`nows` and `deltas`. -/

theorem update_speed_nonneg (cfg : ReelConfig) (s : Reel.State) (now delta : ℚ)
    (hr : 0 ≤ cfg.slowdownRate) (h : 0 ≤ s.speed) :
    0 ≤ (Reel.update cfg s now delta).speed := by
  rcases update_speed_cases cfg s now delta with hc | hc | ⟨hc, -⟩ <;> rw [hc]
  · exact h
  · exact mul_nonneg h hr

/-- C9: the reel's speed is never negative.  From a fresh reel, every sequence
of `startSpin` (base spin speed plus a random jitter in `[-5, 5)`), `stopSpin`
and `update` keeps `speed ≥ 0`, for any configuration whose base spin speed is
at least the jitter magnitude 5 and whose slowdown rate is non-negative (the
repository values are `spinSpeed = 400`, `slowdownRate = 0.95`). -/
theorem speed_nonneg_reachable (cfg : ReelConfig) (c : ℕ) (sz : ℚ)
    (hsp : 5 ≤ cfg.spinSpeed) (hr : 0 ≤ cfg.slowdownRate) (s : Reel.State)
    (h : Reachable cfg c sz s) : 0 ≤ s.speed := by
  induction h with
  | init => norm_num [Reel.init, usp_speed]
  | startSpin jitter hj1 hj2 hrch ih =>
    show (0 : ℚ) ≤ cfg.spinSpeed + jitter
    linarith
  | stopSpin hrch ih => exact ih
  | update now delta hrch ih => exact update_speed_nonneg cfg _ now delta hr ih

/-- Witness for C9 at the repository configuration: a fresh 8-symbol reel
after `startSpin()` with jitter 0 has non-negative speed. -/
theorem speed_nonneg_reachable_witness :
    (5 : ℚ) ≤ defaultReelConfig.spinSpeed ∧ (0 : ℚ) ≤ defaultReelConfig.slowdownRate ∧
    (0 : ℚ) ≤ (Reel.startSpin defaultReelConfig 0 (Reel.init 8 130)).speed :=
  ⟨by norm_num [defaultReelConfig], by norm_num [defaultReelConfig],
    speed_nonneg_reachable defaultReelConfig 8 130 (by norm_num [defaultReelConfig])
      (by norm_num [defaultReelConfig]) _
      (Reachable.startSpin 0 (by norm_num) (by norm_num) Reachable.init)⟩

/-- A reel whose speed is positive is never complete after one more `update`:
the update either keeps the speed positive or zeroes it while entering the
snapping state. -/
theorem update_not_complete (cfg : ReelConfig) (s : Reel.State) (now delta : ℚ)
    (hrate : 0 < cfg.slowdownRate) (hsp : 0 < s.speed) :
    Reel.isAnimationComplete (Reel.update cfg s now delta) = false := by
  rcases update_speed_cases cfg s now delta with hc | hc | ⟨hc, hsn⟩
  · simp [Reel.isAnimationComplete, hc, ne_of_gt hsp]
  · simp [Reel.isAnimationComplete, hc, ne_of_gt (mul_pos hsp hrate)]
  · simp [Reel.isAnimationComplete, hsn]

/-- In any trace of `update` calls starting with positive speed, the first
frame whose speed is zero has its snapping flag set. -/
theorem run_snapping_before_zero (cfg : ReelConfig) (hrate : 0 < cfg.slowdownRate)
    (nows deltas : ℕ → ℚ) (s0 : Reel.State) (hsp : 0 < s0.speed) :
    ∀ n, (reelRun cfg nows deltas s0 n).speed = 0 →
      ∃ k ≤ n, (reelRun cfg nows deltas s0 k).isSnapping = true
  | 0, h0 => absurd h0 (ne_of_gt hsp)
  | n + 1, h0 => by
    by_cases hn : (reelRun cfg nows deltas s0 n).speed = 0
    · obtain ⟨k, hk, hsn⟩ := run_snapping_before_zero cfg hrate nows deltas s0 hsp n hn
      exact ⟨k, by omega, hsn⟩
    · have hpos : 0 < (reelRun cfg nows deltas s0 n).speed := by
        have hge : 0 ≤ (reelRun cfg nows deltas s0 n).speed := by
          clear hn h0
          induction n with
          | zero => exact le_of_lt hsp
          | succ m ih => exact update_speed_nonneg cfg _ _ _ (le_of_lt hrate) ih
        exact lt_of_le_of_ne hge (Ne.symm hn)
      rcases update_speed_cases cfg (reelRun cfg nows deltas s0 n) (nows n) (deltas n)
        with hc | hc | ⟨-, hsn⟩
      · exact absurd (hc.symm.trans h0) (ne_of_gt hpos)
      · exact absurd (hc.symm.trans h0) (ne_of_gt (mul_pos hpos hrate))
      · exact ⟨n + 1, le_refl _, hsn⟩

/-- C5: a decelerating reel (stop requested, positive speed) never becomes
complete without an intermediate `isSnapping = true` frame, and no single
`update` carries a positive-speed state directly to a complete one. -/
theorem decel_snapping_before_complete (cfg : ReelConfig) (hrate : 0 < cfg.slowdownRate)
    (nows deltas : ℕ → ℚ) (s0 : Reel.State)
    (hspin : s0.isSpinning = false) (hsp : 0 < s0.speed) :
    (∀ n, Reel.isAnimationComplete (reelRun cfg nows deltas s0 n) = true →
      ∃ k < n, (reelRun cfg nows deltas s0 k).isSnapping = true) ∧
    (∀ (s : Reel.State) (now delta : ℚ), 0 < s.speed →
      Reel.isAnimationComplete (Reel.update cfg s now delta) = false) := by
  constructor
  · intro n hc
    simp only [Reel.isAnimationComplete, Bool.and_eq_true, Bool.not_eq_true',
      decide_eq_true_eq] at hc
    obtain ⟨⟨-, hz⟩, hns⟩ := hc
    obtain ⟨k, hk, hsn⟩ := run_snapping_before_zero cfg hrate nows deltas s0 hsp n hz
    have hkn : k ≠ n := by
      intro he
      rw [he, hns] at hsn
      exact Bool.false_ne_true hsn
    exact ⟨k, lt_of_le_of_ne hk hkn, hsn⟩
  · intro s now delta h
    exact update_not_complete cfg s now delta hrate h

/-- Witness for C5: the concrete reel `wS0` completes at frame 4 of its trace,
and some earlier frame is a snapping frame. -/
theorem decel_snapping_before_complete_witness :
    (0 : ℚ) < settleConfig.slowdownRate ∧ wS0.isSpinning = false ∧ (0 : ℚ) < wS0.speed ∧
    ∃ k < 4, (reelRun settleConfig wNows wDeltas wS0 k).isSnapping = true :=
  ⟨by norm_num [settleConfig], rfl, by norm_num [wS0],
    (decel_snapping_before_complete settleConfig (by norm_num [settleConfig]) wNows wDeltas wS0
      rfl (by norm_num [wS0])).1 4 (by with_unfolding_all rfl)⟩

/-- A single `update` on a complete (IDLE) reel leaves the offset, the symbol
positions, and completeness unchanged, whatever `now` and `delta` are. -/
theorem update_idle (cfg : ReelConfig) (s : Reel.State) (now delta : ℚ)
    (h : Reel.isAnimationComplete s = true) :
    (Reel.update cfg s now delta).currentOffset = s.currentOffset ∧
    (Reel.update cfg s now delta).positions = s.positions ∧
    Reel.isAnimationComplete (Reel.update cfg s now delta) = true := by
  obtain ⟨c, sz, sp, ispin, off, hsnp, isnap, tgt, lt, pos⟩ := s
  simp only [Reel.isAnimationComplete, Bool.and_eq_true, Bool.not_eq_true',
    decide_eq_true_eq] at h
  obtain ⟨⟨h1, h2⟩, h3⟩ := h
  subst h1 h2 h3
  by_cases hgate : now - lt < 16
  · simp [Reel.update, hgate, Reel.isAnimationComplete]
  · simp [Reel.update, hgate, Reel.isAnimationComplete]

/-- C8: an IDLE reel (`isAnimationComplete`: not spinning, zero speed, not
snapping) keeps its offset and all symbol positions unchanged through any
number of `update(dt)` calls with arbitrary clocks and any `dt ≥ 0`. -/
theorem idle_run (cfg : ReelConfig) (s : Reel.State)
    (h : Reel.isAnimationComplete s = true) (nows deltas : ℕ → ℚ)
    (hd : ∀ i, 0 ≤ deltas i) :
    ∀ n, (reelRun cfg nows deltas s n).currentOffset = s.currentOffset ∧
      (reelRun cfg nows deltas s n).positions = s.positions ∧
      Reel.isAnimationComplete (reelRun cfg nows deltas s n) = true
  | 0 => ⟨rfl, rfl, h⟩
  | n + 1 => by
    obtain ⟨ho, hp, hcmp⟩ := idle_run cfg s h nows deltas hd n
    obtain ⟨ho', hp', hcmp'⟩ := update_idle cfg _ (nows n) (deltas n) hcmp
    exact ⟨ho'.trans ho, hp'.trans hp, hcmp'⟩

/-- Witness for C8: the settled reel `E296` keeps its offset and positions
through 3 frames of the constant-1 trace. -/
theorem idle_run_witness :
    Reel.isAnimationComplete E296 = true ∧ (∀ i, (0 : ℚ) ≤ wDeltas i) ∧
    (reelRun settleConfig wNows wDeltas E296 3).currentOffset = E296.currentOffset ∧
    (reelRun settleConfig wNows wDeltas E296 3).positions = E296.positions :=
  ⟨E296_complete, fun i => by norm_num [wDeltas],
    (idle_run settleConfig E296 E296_complete wNows wDeltas
      (fun i => by norm_num [wDeltas]) 3).1,
    (idle_run settleConfig E296 E296_complete wNows wDeltas
      (fun i => by norm_num [wDeltas]) 3).2.1⟩

/-- C10: `update` is wall-clock throttled.  A call made less than 16 ms of
`performance.now()` time after the last effective update returns with the
state completely unchanged, regardless of `delta`; consequently the result of
`update` is not a function of the previous state and `delta` alone — the same
spinning state stepped with the same `delta = 1` gives different results at
`now = 330` and `now = 336`. -/
theorem update_throttled :
    (∀ (cfg : ReelConfig) (s : Reel.State) (now delta : ℚ),
        now - s.lastUpdateTime < 16 → Reel.update cfg s now delta = s) ∧
    Reel.update defaultReelConfig B20 330 1 = B20 ∧
    Reel.update defaultReelConfig B20 336 1 ≠ Reel.update defaultReelConfig B20 330 1 := by
  refine ⟨fun cfg s now delta h => by simp [Reel.update, h], ?_, ?_⟩
  · with_unfolding_all rfl
  · with_unfolding_all decide

/-- Witness for C10: the throttle hypothesis holds concretely for `B20`
(last effective update at 320) at `now = 330`. -/
theorem update_throttled_witness :
    (330 : ℚ) - B20.lastUpdateTime < 16 ∧ Reel.update defaultReelConfig B20 330 1 = B20 :=
  ⟨by norm_num [B20, rq], update_throttled.1 defaultReelConfig B20 330 1 (by norm_num [B20, rq])⟩

/-- C4: `spin()` is guarded by `isSpinning`.  A call while a cycle is active
returns the state unchanged with no effects (no sound, no event emission, no
scheduled reel commands); hence two consecutive `spin()` calls from an
inactive state produce exactly one `spin:start` emission and exactly one
scheduled reel start per reel. -/
theorem spin_guard :
    (∀ (anim : SlotMachine.AnimConfig) (m : SlotMachine.State),
        m.isSpinning = true → SlotMachine.spin anim m = (m, [])) ∧
    (∀ (anim : SlotMachine.AnimConfig) (m : SlotMachine.State),
        m.isSpinning = false →
          SlotMachine.spin anim ((SlotMachine.spin anim m).1) = ((SlotMachine.spin anim m).1, []) ∧
          SlotMachine.countSpinStart
            ((SlotMachine.spin anim m).2 ++ (SlotMachine.spin anim ((SlotMachine.spin anim m).1)).2) = 1 ∧
          SlotMachine.countScheduledStarts
            ((SlotMachine.spin anim m).2 ++ (SlotMachine.spin anim ((SlotMachine.spin anim m).1)).2) =
            m.reels.length) := by
  have hguard : ∀ (anim : SlotMachine.AnimConfig) (m : SlotMachine.State),
      m.isSpinning = true → SlotMachine.spin anim m = (m, []) := by
    intro anim m h
    unfold SlotMachine.spin
    rw [h]
    simp
  refine ⟨hguard, fun anim m h => ?_⟩
  have h1 : (SlotMachine.spin anim m).1.isSpinning = true := by
    unfold SlotMachine.spin
    rw [h]
    simp
  have h2 : SlotMachine.spin anim ((SlotMachine.spin anim m).1) = ((SlotMachine.spin anim m).1, []) :=
    hguard anim _ h1
  have hmap1 : List.filter (fun e => e matches SlotMachine.Effect.emitSpinStart)
      (List.map (fun i => SlotMachine.Effect.scheduleStartSpin i ((i : ℚ) * anim.reelSpinDelay))
        (List.range m.reels.length)) = [] := by
    rw [List.filter_eq_nil_iff]
    rintro a ha
    obtain ⟨i, -, rfl⟩ := List.mem_map.1 ha
    simp
  have hmap2 : List.filter (fun e => e matches SlotMachine.Effect.scheduleStartSpin _ _)
      (List.map (fun i => SlotMachine.Effect.scheduleStartSpin i ((i : ℚ) * anim.reelSpinDelay))
        (List.range m.reels.length)) =
      List.map (fun i => SlotMachine.Effect.scheduleStartSpin i ((i : ℚ) * anim.reelSpinDelay))
        (List.range m.reels.length) := by
    rw [List.filter_eq_self]
    rintro a ha
    obtain ⟨i, -, rfl⟩ := List.mem_map.1 ha
    simp
  refine ⟨h2, ?_, ?_⟩
  · rw [h2]
    unfold SlotMachine.spin
    rw [h]
    simp [SlotMachine.countSpinStart, List.filter_append, hmap1]
  · rw [h2]
    unfold SlotMachine.spin
    rw [h]
    simp [SlotMachine.countScheduledStarts, List.filter_append, hmap2]

theorem spin_guard_witness :
    wMachine.isSpinning = false ∧
    SlotMachine.spin wAnim ((SlotMachine.spin wAnim wMachine).1) =
      ((SlotMachine.spin wAnim wMachine).1, []) ∧
    SlotMachine.countSpinStart
      ((SlotMachine.spin wAnim wMachine).2 ++
        (SlotMachine.spin wAnim ((SlotMachine.spin wAnim wMachine).1)).2) = 1 ∧
    SlotMachine.countScheduledStarts
      ((SlotMachine.spin wAnim wMachine).2 ++
        (SlotMachine.spin wAnim ((SlotMachine.spin wAnim wMachine).1)).2) =
      wMachine.reels.length :=
  ⟨rfl, (spin_guard.2 wAnim wMachine rfl).1, (spin_guard.2 wAnim wMachine rfl).2.1,
    (spin_guard.2 wAnim wMachine rfl).2.2⟩

/-- The completion-barrier recursion: if `checkReelsComplete` starting at time
`t` fires at time `T`, then the completion predicate holds at `T`, `T` lies on
the 50 ms retry grid from `t`, and every earlier retry sampled the predicate
as false. -/
theorem barrier_spec (reelsAt : ℚ → List Reel.State) :
    ∀ (fuel : ℕ) (t T : ℚ), SlotMachine.checkReelsComplete reelsAt fuel t = some T →
      (reelsAt T).all Reel.isAnimationComplete = true ∧
      ∃ k : ℕ, T = t + 50 * k ∧
        ∀ j < k, (reelsAt (t + 50 * j)).all Reel.isAnimationComplete = false
  | 0, t, T => by simp [SlotMachine.checkReelsComplete]
  | fuel + 1, t, T => by
    intro h
    unfold SlotMachine.checkReelsComplete at h
    by_cases hc : (reelsAt t).all Reel.isAnimationComplete = true
    · rw [if_pos hc] at h
      obtain rfl : t = T := by injection h
      exact ⟨hc, 0, by norm_num, by omega⟩
    · rw [if_neg hc] at h
      obtain ⟨hT, k, hTeq, hmin⟩ := barrier_spec reelsAt fuel (t + 50) T h
      refine ⟨hT, k + 1, by rw [hTeq]; push_cast; ring, ?_⟩
      intro j hj
      cases j with
      | zero =>
        simpa using Bool.not_eq_true _ |>.mp hc
      | succ i =>
        have hi := hmin i (by omega)
        have harg : t + 50 * ((i : ℚ) + 1) = t + 50 + 50 * (i : ℚ) := by ring
        push_cast
        rw [harg]
        push_cast at hi
        exact hi

/-- C3: the completion barrier.  If, with the reel states over time given by
`reelsAt`, `checkWin()` fires at time `T` (first check 100 ms after the last
reel's `stopSpin()`, retries every 50 ms), then every reel reports
`isAnimationComplete()` at `T`, and every earlier check of the barrier sampled
`reels.every(isAnimationComplete)` as false — win evaluation happens exactly
when the predicate first holds at a check time. -/
theorem checkWin_barrier (reelsAt : ℚ → List Reel.State) (fuel : ℕ) (tLastStop T : ℚ)
    (h : SlotMachine.checkWinTime reelsAt fuel tLastStop = some T) :
    (reelsAt T).all Reel.isAnimationComplete = true ∧
    ∃ k : ℕ, T = tLastStop + 100 + 50 * k ∧
      ∀ j < k, (reelsAt (tLastStop + 100 + 50 * j)).all Reel.isAnimationComplete = false := by
  unfold SlotMachine.checkWinTime at h
  exact barrier_spec reelsAt fuel (tLastStop + 100) T h

/-- Witness for C3: with `wReelsAt`, the barrier started at `tLastStop = 0`
fires at time `200 = 0 + 100 + 50·2`, the predicate holds there, and the
checks at 100 and 150 sampled it as false. -/
theorem checkWin_barrier_witness :
    SlotMachine.checkWinTime wReelsAt 5 0 = some 200 ∧
    (wReelsAt 200).all Reel.isAnimationComplete = true ∧
    ∃ k : ℕ, (200 : ℚ) = 0 + 100 + 50 * k ∧
      ∀ j < k, (wReelsAt (0 + 100 + 50 * j)).all Reel.isAnimationComplete = false := by
  have hfire : SlotMachine.checkWinTime wReelsAt 5 0 = some 200 := by
    with_unfolding_all rfl
  exact ⟨hfire, (checkWin_barrier wReelsAt 5 0 200 hfire).1,
    (checkWin_barrier wReelsAt 5 0 200 hfire).2⟩

/-- C6: the monotonic-scroll property of the plain `Reel.ts` reel.  With the
configured spin speed 50, `startSpin()` followed by a single `update(dt = 1)`
leaves the pre-wrap offset at `-50` (the offset field is never wrapped; only
the rendered symbol positions are). -/
theorem simple_scroll (symbolCount : ℕ) (symbolSize : ℚ) :
    (SimpleReel.update (SimpleReel.startSpin 50 (SimpleReel.init symbolCount symbolSize))
      1).currentOffset = -50 := by
  simp only [SimpleReel.update, SimpleReel.startSpin, SimpleReel.init,
    SimpleReel.updateSymbolPositions]
  norm_num

theorem jsWrap_eq_fract (x w : ℚ) (hw : 0 < w) :
    jsWrap x w = w * Int.fract (x / w) := by
  have hxw : x = x / w * w := by field_simp
  unfold jsWrap jsMod jsTrunc
  set q := x / w with hq
  by_cases h0 : 0 ≤ q
  · rw [if_pos h0]
    have hm : x - w * (⌊q⌋ : ℚ) = w * Int.fract q := by
      rw [Int.fract]
      nlinarith [hxw]
    rw [if_neg (by nlinarith [Int.fract_nonneg q, hm])]
    exact hm
  · rw [if_neg h0]
    push_neg at h0
    by_cases hint : (⌈q⌉ : ℚ) = (⌊q⌋ : ℚ)
    · have hm : x - w * (⌈q⌉ : ℚ) = w * Int.fract q := by
        rw [Int.fract, hint]
        nlinarith [hxw]
      have hfr : Int.fract q = 0 := by
        have h1 : (⌊q⌋ : ℚ) ≤ q := Int.floor_le q
        have h2 : q ≤ (⌈q⌉ : ℚ) := Int.le_ceil q
        rw [Int.fract]
        rw [hint] at h2
        linarith
      rw [if_neg (by rw [hm, hfr]; norm_num)]
      rw [hm]
    · have hceil : (⌈q⌉ : ℚ) = (⌊q⌋ : ℚ) + 1 := by
        have h1 : ⌈q⌉ ≤ ⌊q⌋ + 1 := Int.ceil_le_floor_add_one q
        have h2 : ⌊q⌋ ≤ ⌈q⌉ := Int.floor_le_ceil q
        have h3 : ⌊q⌋ ≠ ⌈q⌉ := fun he => hint (by exact_mod_cast he.symm)
        have : ⌈q⌉ = ⌊q⌋ + 1 := by omega
        exact_mod_cast this
      have hfr : 0 < Int.fract q := by
        rcases lt_or_eq_of_le (Int.fract_nonneg q) with h | h
        · exact h
        · exfalso
          apply hint
          have : q = (⌊q⌋ : ℚ) := by
            rw [Int.fract] at h
            linarith
          rw [this]
          simp
      have hm : x - w * (⌈q⌉ : ℚ) = w * (Int.fract q - 1) := by
        rw [hceil, Int.fract]
        nlinarith [hxw]
      rw [if_pos (by nlinarith [Int.fract_lt_one q])]
      rw [hm]
      ring

/-- C1, amended: for every pre-snap state (any real offset, `symbolCount > 0`,
`symbolSize > 0`, snap not yet prepared), `prepareSnap` wraps the offset into
`[0, totalWidth)`, rounds to the nearest multiple of `symbolSize` **clamped to
`[0, totalWidth - symbolSize]`**, and re-adds the full belt cycles; the settled
target differs from the pre-snap offset by less than one symbol width, and by
at most half a symbol whenever the wrapped offset is at least half a symbol
away from `totalWidth` — the clamp makes the final half-symbol guarantee of
the original claim fail in the remaining window (see the counterexample). -/
theorem prepareSnap_snap_bounds (s : Reel.State)
    (hc : 0 < s.symbolCount) (hsz : 0 < s.symbolSize) (hsnap : s.hasSnapped = false) :
    |(Reel.prepareSnap s).snapTarget - s.currentOffset| < s.symbolSize ∧
    (jsWrap s.currentOffset ((s.symbolCount : ℚ) * s.symbolSize) ≤
        (s.symbolCount : ℚ) * s.symbolSize - s.symbolSize / 2 →
      |(Reel.prepareSnap s).snapTarget - s.currentOffset| ≤ s.symbolSize / 2) := by
  obtain ⟨c, sz, sp, ispin, off, hsnp, isnap, tgt, lt, pos⟩ := s
  simp only at hc hsz hsnap
  subst hsnap
  unfold Reel.prepareSnap
  rw [if_neg Bool.false_ne_true]
  dsimp only
  have hc1 : (1 : ℚ) ≤ (c : ℚ) := by exact_mod_cast hc
  have hW : 0 < (c : ℚ) * sz := by positivity
  set W := (c : ℚ) * sz with hWdef
  set w := jsWrap off W with hwdef
  have hfr := jsWrap_eq_fract off W hW
  have hw0 : 0 ≤ w := by
    rw [hwdef, hfr]
    exact mul_nonneg (le_of_lt hW) (Int.fract_nonneg _)
  have hwW : w < W := by
    rw [hwdef, hfr]
    nlinarith [Int.fract_lt_one (off / W)]
  have hid : off - w = W * (⌊off / W⌋ : ℚ) := by
    rw [hwdef, hfr, Int.fract]
    have : off / W * W = off := by field_simp
    nlinarith [this]
  set k := ⌊w / sz + 1/2⌋ with hkdef
  have hround : jsRound (w / sz) * sz = (k : ℚ) * sz := rfl
  have hk1 : (k : ℚ) ≤ w / sz + 1/2 := Int.floor_le _
  have hk2 : w / sz + 1/2 < (k : ℚ) + 1 := Int.lt_floor_add_one _
  have hk0 : (0 : ℚ) ≤ (k : ℚ) := by
    have : (0 : ℤ) ≤ k := Int.le_floor.mpr (by positivity)
    exact_mod_cast this
  have hksz1 : (k : ℚ) * sz ≤ w + sz / 2 := by
    have := mul_le_mul_of_nonneg_right hk1 (le_of_lt hsz)
    calc (k : ℚ) * sz ≤ (w / sz + 1/2) * sz := this
      _ = w + sz / 2 := by field_simp; ring
  have hksz2 : w - sz / 2 < (k : ℚ) * sz := by
    have := mul_lt_mul_of_pos_right hk2 hsz
    have h2 : (w / sz + 1/2) * sz = w + sz / 2 := by field_simp; ring
    nlinarith
  have hmax : max 0 (min ((k : ℚ) * sz) (W - sz)) = min ((k : ℚ) * sz) (W - sz) := by
    apply max_eq_right
    apply le_min (mul_nonneg hk0 (le_of_lt hsz))
    nlinarith
  rw [hround, hmax]
  have hdiff : ∀ T : ℚ, (⌊off / W⌋ : ℚ) * W + T - off = T - w := by
    intro T
    nlinarith [hid]
  by_cases hcase : (k : ℚ) * sz ≤ W - sz
  · rw [min_eq_left hcase, hdiff]
    constructor
    · have : |(k : ℚ) * sz - w| ≤ sz / 2 := abs_le.mpr ⟨by linarith, by linarith⟩
      linarith [this, half_lt_self hsz]
    · intro hcond
      exact abs_le.mpr ⟨by linarith, by linarith⟩
  · push_neg at hcase
    rw [min_eq_right (le_of_lt hcase), hdiff]
    constructor
    · exact abs_lt.mpr ⟨by linarith, by linarith⟩
    · intro hcond
      exact abs_le.mpr ⟨by linarith, by linarith⟩

theorem posInv_usp (s : Reel.State) :
    PosInv (Reel.updateSymbolPositions s).symbolCount
      (Reel.updateSymbolPositions s).symbolSize
      (Reel.updateSymbolPositions s).currentOffset
      (Reel.updateSymbolPositions s).positions := by
  unfold Reel.updateSymbolPositions PosInv
  dsimp only
  refine ⟨by rw [List.length_map, List.length_range], ?_⟩
  intro i h
  have hlen : i < s.symbolCount := by
    rw [List.length_map, List.length_range] at h
    exact h
  simp only [List.get_eq_getElem, List.getElem_map, List.getElem_range]
  unfold wrapVal
  dsimp only
  by_cases hr : (!s.isSnapping && !s.isSpinning && |s.speed| < 1/10) = true
  · rw [if_pos hr]
    right
    rfl
  · rw [if_neg hr]
    left
    rfl

theorem wrapVal_shift (c : ℕ) (sz off : ℚ) (n : ℤ) (hW : 0 < (c : ℚ) * sz) (i : ℕ) :
    wrapVal c sz (off - (c : ℚ) * sz * (n : ℚ)) i = wrapVal c sz off i := by
  unfold wrapVal
  dsimp only
  have hj : jsWrap ((i : ℚ) * sz + (off - (c : ℚ) * sz * (n : ℚ))) ((c : ℚ) * sz) =
      jsWrap ((i : ℚ) * sz + off) ((c : ℚ) * sz) := by
    rw [jsWrap_eq_fract _ _ hW, jsWrap_eq_fract _ _ hW]
    congr 1
    have harg : ((i : ℚ) * sz + (off - (c : ℚ) * sz * (n : ℚ))) / ((c : ℚ) * sz) =
        ((i : ℚ) * sz + off) / ((c : ℚ) * sz) - (n : ℚ) := by
      field_simp
      ring
    rw [harg, Int.fract_sub_int]
  rw [hj]

theorem posInv_shift (c : ℕ) (sz off : ℚ) (n : ℤ) (pos : List ℚ) (hW : 0 < (c : ℚ) * sz)
    (h : PosInv c sz off pos) : PosInv c sz (off - (c : ℚ) * sz * (n : ℚ)) pos := by
  obtain ⟨hlen, helt⟩ := h
  refine ⟨hlen, fun i hi => ?_⟩
  rw [wrapVal_shift c sz off n hW i]
  exact helt i hi

theorem posInv_prepareSnap (t : Reel.State) (hW : 0 < (t.symbolCount : ℚ) * t.symbolSize)
    (h : PosInv t.symbolCount t.symbolSize t.currentOffset t.positions) :
    PosInv (Reel.prepareSnap t).symbolCount (Reel.prepareSnap t).symbolSize
      (Reel.prepareSnap t).currentOffset (Reel.prepareSnap t).positions := by
  unfold Reel.prepareSnap
  dsimp only
  split_ifs with hs
  · exact h
  · have hwrap : jsWrap t.currentOffset ((t.symbolCount : ℚ) * t.symbolSize) =
        t.currentOffset - (t.symbolCount : ℚ) * t.symbolSize *
          ((⌊t.currentOffset / ((t.symbolCount : ℚ) * t.symbolSize)⌋ : ℤ) : ℚ) := by
      rw [jsWrap_eq_fract _ _ hW, Int.fract]
      have hdiv : t.currentOffset / ((t.symbolCount : ℚ) * t.symbolSize) *
          ((t.symbolCount : ℚ) * t.symbolSize) = t.currentOffset := by
        field_simp
      nlinarith [hdiv]
    rw [hwrap]
    exact posInv_shift _ _ _ _ _ hW h

theorem posInv_decelerate (cfg : ReelConfig) (t : Reel.State)
    (hW : 0 < (t.symbolCount : ℚ) * t.symbolSize)
    (h : PosInv t.symbolCount t.symbolSize t.currentOffset t.positions) :
    PosInv (Reel.decelerate cfg t).symbolCount (Reel.decelerate cfg t).symbolSize
      (Reel.decelerate cfg t).currentOffset (Reel.decelerate cfg t).positions := by
  unfold Reel.decelerate
  dsimp only
  split_ifs <;>
    first
      | exact h
      | exact posInv_prepareSnap _ hW h

theorem posInv_snapPhase (x : Reel.State) (nd : ℚ) :
    PosInv (Reel.snapPhase x nd).symbolCount (Reel.snapPhase x nd).symbolSize
      (Reel.snapPhase x nd).currentOffset (Reel.snapPhase x nd).positions := by
  unfold Reel.snapPhase
  dsimp only
  split_ifs <;> exact posInv_usp _

theorem posInv_update (cfg : ReelConfig) (s : Reel.State) (now delta : ℚ)
    (hW : 0 < (s.symbolCount : ℚ) * s.symbolSize)
    (h : PosInv s.symbolCount s.symbolSize s.currentOffset s.positions) :
    PosInv (Reel.update cfg s now delta).symbolCount
      (Reel.update cfg s now delta).symbolSize
      (Reel.update cfg s now delta).currentOffset
      (Reel.update cfg s now delta).positions := by
  unfold Reel.update
  dsimp only
  split_ifs with h1 h2 h3 h4
  · exact h
  · exact posInv_snapPhase _ _
  · exact h
  · exact posInv_decelerate cfg _ hW (posInv_usp _)
  · exact posInv_decelerate cfg _ hW (posInv_usp _)

theorem prepareSnap_dims (t : Reel.State) :
    (Reel.prepareSnap t).symbolCount = t.symbolCount ∧
    (Reel.prepareSnap t).symbolSize = t.symbolSize := by
  unfold Reel.prepareSnap
  split_ifs <;> exact ⟨rfl, rfl⟩

theorem decelerate_dims (cfg : ReelConfig) (t : Reel.State) :
    (Reel.decelerate cfg t).symbolCount = t.symbolCount ∧
    (Reel.decelerate cfg t).symbolSize = t.symbolSize := by
  unfold Reel.decelerate
  dsimp only
  split_ifs <;>
    first
      | exact ⟨rfl, rfl⟩
      | exact ⟨(prepareSnap_dims _).1, (prepareSnap_dims _).2⟩

theorem snapPhase_dims (x : Reel.State) (nd : ℚ) :
    (Reel.snapPhase x nd).symbolCount = x.symbolCount ∧
    (Reel.snapPhase x nd).symbolSize = x.symbolSize := by
  unfold Reel.snapPhase
  dsimp only
  split_ifs <;> exact ⟨rfl, rfl⟩

theorem update_dims (cfg : ReelConfig) (s : Reel.State) (now delta : ℚ) :
    (Reel.update cfg s now delta).symbolCount = s.symbolCount ∧
    (Reel.update cfg s now delta).symbolSize = s.symbolSize := by
  unfold Reel.update
  dsimp only
  split_ifs
  · exact ⟨rfl, rfl⟩
  · exact snapPhase_dims _ _
  · exact ⟨rfl, rfl⟩
  · exact decelerate_dims cfg _
  · exact decelerate_dims cfg _

/-- C7, amended: at every reachable state of a reel (after construction and
after every `startSpin`/`stopSpin`/`update`), the stored `x` of symbol `i` is
derived from the wrap of `i * symbolSize + currentOffset` into
`[0, totalWidth)` — either that wrapped value itself or, when the reel was at
rest at the last position refresh, the wrapped value rounded to the nearest
whole pixel (`Math.round`, part_007 line 355); the original unrounded equality
fails at fractional grid positions (see the counterexample). -/
theorem reachable_posInv (cfg : ReelConfig) (c : ℕ) (sz : ℚ)
    (hc : 0 < c) (hsz : 0 < sz) (s : Reel.State) (h : Reachable cfg c sz s) :
    s.symbolCount = c ∧ s.symbolSize = sz ∧
    PosInv s.symbolCount s.symbolSize s.currentOffset s.positions := by
  induction h with
  | init => exact ⟨rfl, rfl, posInv_usp _⟩
  | startSpin jitter hj1 hj2 hrch ih => exact ih
  | stopSpin hrch ih => exact ih
  | @update t now delta hrch ih =>
    obtain ⟨hcnt, hszeq, hinv⟩ := ih
    have hW : 0 < (t.symbolCount : ℚ) * t.symbolSize := by
      rw [hcnt, hszeq]
      have : (0 : ℚ) < (c : ℚ) := by exact_mod_cast hc
      positivity
    refine ⟨(update_dims cfg t now delta).1.trans hcnt,
      (update_dims cfg t now delta).2.trans hszeq, ?_⟩
    exact posInv_update cfg t now delta hW hinv

/-- C1, counterexample: the pre-snap state with `symbolCount = 2`,
`symbolSize = 2`, `currentOffset = 3.5` snaps to target `2`, a move of `1.5`,
which exceeds half a symbol width (`1`): the claim that the snap never moves
the belt by more than half a symbol is false. -/
theorem snap_half_symbol_counterexample :
    0 < preSnapC1.symbolCount ∧ (0 : ℚ) < preSnapC1.symbolSize ∧
    preSnapC1.hasSnapped = false ∧
    ¬ |(Reel.prepareSnap preSnapC1).snapTarget - preSnapC1.currentOffset| ≤
        preSnapC1.symbolSize / 2 := by
  refine ⟨by norm_num [preSnapC1], by norm_num [preSnapC1], rfl, ?_⟩
  with_unfolding_all decide

theorem prepareSnap_snap_bounds_witness :
    0 < preSnapC1.symbolCount ∧ (0 : ℚ) < preSnapC1.symbolSize ∧
    preSnapC1.hasSnapped = false ∧
    |(Reel.prepareSnap preSnapC1).snapTarget - preSnapC1.currentOffset| <
      preSnapC1.symbolSize :=
  ⟨by norm_num [preSnapC1], by norm_num [preSnapC1], rfl,
    (prepareSnap_snap_bounds preSnapC1 (by norm_num [preSnapC1]) (by norm_num [preSnapC1])
      rfl).1⟩

/-- C7, counterexample: a fresh reel with `symbolCount = 2`,
`symbolSize = 3/2` stores `x = 2` for symbol 1 — `Math.round` applied to the
wrapped value `3/2` — so the claimed exact equality with
`wrap(i * symbolSize + offset, totalWidth)` does not hold. -/
theorem positions_exact_wrap_counterexample :
    (Reel.init 2 (3/2)).positions[1]? ≠
      some (jsWrap ((1 : ℚ) * (3/2) + (Reel.init 2 (3/2)).currentOffset) ((2 : ℚ) * (3/2))) := by
  with_unfolding_all decide

theorem reachable_posInv_witness :
    0 < 2 ∧ (0 : ℚ) < 3/2 ∧
    PosInv (Reel.init 2 (3/2)).symbolCount (Reel.init 2 (3/2)).symbolSize
      (Reel.init 2 (3/2)).currentOffset (Reel.init 2 (3/2)).positions :=
  ⟨by norm_num, by norm_num,
    (reachable_posInv defaultReelConfig 2 (3/2) (by norm_num) (by norm_num) _
      Reachable.init).2.2⟩
